import Mathlib

/-!
Shallow embedding of `src/phGeo.js` (repository Zaenalos/PH-Geolocation).

The source file contains two iterations of the `PHGeolocation` class:
variant 1 (async query methods, `loadGeo` guarded by data truthiness) and
variant 2 (sync query methods, `loadGeo` guarded by an `isLoading` flag).
We embed both, on top of a small model of the JavaScript values the code
manipulates: parsed-JSON trees, property access including the
`Object.prototype` chain, optional chaining, truthiness, and `Object.keys`.
-/

namespace PHGeo

/-- JavaScript runtime values reachable in this program: parsed JSON trees
plus `undefined` and opaque function values inherited from prototypes.
Object fields are kept as an insertion-ordered association list. -/
inductive JsVal where
  | undefined
  | null
  | bool (b : Bool)
  | num (n : Int)
  | str (s : String)
  | arr (elems : List JsVal)
  | obj (fields : List (String × JsVal))
  | fn (name : String)

/-- JavaScript truthiness (`if (v)`): `undefined`, `null`, `false`, `0` and
the empty string are falsy; objects, arrays and functions are always truthy.
(NaN is not representable here; the program never produces it.) -/
def truthy : JsVal → Bool
  | .undefined => false
  | .null => false
  | .bool b => b
  | .num n => n != 0
  | .str s => s != ""
  | .arr _ => true
  | .obj _ => true
  | .fn _ => true

/-- Association-list lookup: first binding wins, like JS own-property lookup
on objects built by `JSON.parse` (which keeps the last duplicate, but the
dataset is assumed duplicate-free, spec section 3). -/
def assocFind {α : Type} (k : String) : List (String × α) → Option α
  | [] => none
  | (a, v) :: rest => if a = k then some v else assocFind k rest

/-- Function-valued members inherited from `Object.prototype` by every
plain object produced by `JSON.parse` (including the legacy accessor
functions present in the browsers and Node the code targets). Accessing one
of these names on an object that has no such own key yields a (truthy)
function value. -/
def objectProtoProps : List String :=
  ["constructor", "hasOwnProperty", "isPrototypeOf", "propertyIsEnumerable",
   "toLocaleString", "toString", "valueOf",
   "__defineGetter__", "__defineSetter__", "__lookupGetter__", "__lookupSetter__"]

/-- All inherited `Object.prototype` member names: the function-valued ones
plus the `__proto__` accessor, whose read on a plain object yields
`Object.prototype` itself (a truthy object). -/
def objectProtoNames : List String :=
  "__proto__" :: objectProtoProps

/-- Inherited-property lookup on a plain object's prototype chain:
`__proto__` resolves to the `Object.prototype` object (modeled with no own
keys — its own properties are all non-enumerable and are themselves served
by this table; the real `Object.prototype.__proto__` is `null`, a
difference observable only by dereferencing `__proto__` twice, which no
program path does); the function-valued members resolve to function values;
anything else to `undefined`. -/
def protoLookup (k : String) : JsVal :=
  if k = "__proto__" then .obj []
  else if k ∈ objectProtoProps then .fn k
  else .undefined

/-- Total property access as it appears after an optional-chaining guard
(`a?.b`, `a?.[k]`): nullish receivers give `undefined`; objects consult own
keys then the prototype; other receivers are approximated by the
`Object.prototype` chain alone (no such access is reachable on the
program's data). -/
def optGet (v : JsVal) (k : String) : JsVal :=
  match v with
  | .undefined => .undefined
  | .null => .undefined
  | .obj fields => (assocFind k fields).getD (protoLookup k)
  | _ => protoLookup k

/-- Errors the embedded program can raise. -/
inductive JsError where
  | typeError
  | parseError
  | err (message : String)
deriving DecidableEq

/-- Plain property access `v[k]` / `v.k`: throws `TypeError` on a nullish
receiver, otherwise behaves like `optGet`. -/
def jsGet (v : JsVal) (k : String) : Except JsError JsVal :=
  match v with
  | .undefined => .error .typeError
  | .null => .error .typeError
  | v => .ok (optGet v k)

/-- Model of `Object.keys`: own enumerable keys in insertion order (index
keys for arrays and strings), `TypeError` on nullish arguments. -/
def objectKeys : JsVal → Except JsError (List String)
  | .undefined => .error .typeError
  | .null => .error .typeError
  | .obj fields => .ok (fields.map Prod.fst)
  | .arr xs => .ok ((List.range xs.length).map (fun i => toString i))
  | .str s => .ok ((List.range s.length).map (fun i => toString i))
  | _ => .ok []

/-- JavaScript `a || b`. -/
def jsOr (a b : JsVal) : JsVal := if truthy a then a else b

/-- Outcome of the single `fetch` + `response.text()` + `JSON.parse`
pipeline, as seen by `loadGeo`: a non-ok HTTP response, an ok response whose
body is not valid JSON, or an ok response parsing to a value. -/
inductive FetchOutcome where
  | notOk (status : Nat) (statusText : String)
  | okMalformed
  | okJson (v : JsVal)

/-- Whether this fetch outcome makes `loadGeo` fail. -/
def FetchOutcome.failing : FetchOutcome → Bool
  | .okJson _ => false
  | _ => true

/-- Message of `new Error(...)` raised by variant 1 `loadGeo` on a non-ok
response (src line 34). -/
def fetchFailMsg1 (status : Nat) (statusText : String) : String :=
  "Failed to fetch data (" ++ toString status ++ " " ++ statusText ++ ")"

/-- Message of the corresponding variant 2 error (src line 201). -/
def fetchFailMsg2 (status : Nat) (statusText : String) : String :=
  "PH-Geo: error - Failed to fetch data (" ++ toString status ++ " " ++ statusText ++ ")"

/-- Variant 1 region-not-found message (src line 78). -/
def regionMsg1 (region : String) : String :=
  "Region \"" ++ region ++ "\" not found"

/-- Variant 2 region-not-found message (src lines 258, 273, 294). -/
def regionMsg2 (region : String) : String :=
  "PH-Geo: error - Region \"" ++ region ++ "\" not found"

/-- Variant 1 province-not-found message (src line 94). -/
def provinceMsg1 (province region : String) : String :=
  "Province \"" ++ province ++ "\" not found in region \"" ++ region ++ "\""

/-- Variant 2 province-not-found message (src lines 277, 298). -/
def provinceMsg2 (province region : String) : String :=
  "PH-Geo: error - Province \"" ++ province ++ "\" not found in region \"" ++ region ++ "\""

/-- Variant 1 city-not-found message (src line 111). -/
def cityMsg1 (city province region : String) : String :=
  "City \"" ++ city ++ "\" not found in province \"" ++ province ++
    "\" of region \"" ++ region ++ "\""

/-- Variant 2 city-not-found message (src line 302); it omits the region. -/
def cityMsg2 (city province : String) : String :=
  "PH-Geo: error - City \"" ++ city ++ "\" not found in province \"" ++ province ++ "\""

/-- Variant 2 not-loaded message (src line 317). -/
def notLoadedMsg : String :=
  "PH-Geo: error - Data not loaded. Ensure initialization is complete."

/-- Message text extracted from a thrown error (`error.message`); built-in
error messages are approximated by their kind, which the program never
inspects. -/
def JsError.message : JsError → String
  | .typeError => "TypeError"
  | .parseError => "Unexpected token in JSON"
  | .err m => m

/-- State of a variant 1 `PHGeolocation` instance: `this.data` (initially
`null`), `this.isInitialized`, plus an instrumentation counter of network
fetches issued. The cached constructor promise `_initPromise` resolves once
the auto-started load settles (its rejection is consumed by the constructor
`catch`), so after settlement awaiting it neither throws nor changes state. -/
structure GeoState1 where
  data : JsVal
  isInitialized : Bool
  fetchCount : Nat

/-- Freshly constructed variant 1 state (src lines 13 to 14), before any
fetch has completed. -/
def fresh1 : GeoState1 :=
  { data := .null, isInitialized := false, fetchCount := 0 }

namespace V1

/-- Variant 1 `loadGeo` (src lines 26 to 45), run to completion with the
given fetch outcome: returns early when `this.data` is truthy; otherwise
fetches (counted), throws on a non-ok response or malformed JSON, and
stores the parsed value on success. -/
def loadGeo (s : GeoState1) (resp : FetchOutcome) : GeoState1 × Except JsError Unit :=
  if truthy s.data then (s, .ok ())
  else
    let s' := { s with fetchCount := s.fetchCount + 1 }
    match resp with
    | .notOk status statusText => (s', .error (.err (fetchFailMsg1 status statusText)))
    | .okMalformed => (s', .error .parseError)
    | .okJson v => ({ s' with data := v }, .ok ())

/-- Variant 1 init routine (src lines 52 to 56, the JS method that awaits
`loadGeo` then sets `isInitialized`); on failure the flag is never set and
the error propagates. -/
def initClient (s : GeoState1) (resp : FetchOutcome) : GeoState1 × Except JsError Unit :=
  match loadGeo s resp with
  | (s', .ok _) => ({ s' with isInitialized := true }, .ok ())
  | (s', .error e) => (s', .error e)

/-- Variant 1 `ensureDataLoaded` (src lines 62 to 67): awaits the settled
`_initPromise`, which never rejects (the constructor consumed its failure),
so once that promise has settled this is an observable no-op. -/
def ensureDataLoaded (_s : GeoState1) : Except JsError Unit := .ok ()

/-- Variant 1 `_getRegion` (src lines 75 to 81):
`this.data?.regions?.[region]` then a truthiness check. -/
def _getRegion (s : GeoState1) (region : String) : Except JsError JsVal :=
  let regionData := optGet (optGet s.data "regions") region
  if truthy regionData then .ok regionData
  else .error (.err (regionMsg1 region))

/-- Variant 1 `_getProvince` (src lines 90 to 97):
`regionData.provinces?.[province]` then a truthiness check. -/
def _getProvince (s : GeoState1) (region province : String) : Except JsError JsVal :=
  match _getRegion s region with
  | .error e => .error e
  | .ok regionData =>
    match jsGet regionData "provinces" with
    | .error e => .error e
    | .ok provincesVal =>
      let provinceData := optGet provincesVal province
      if truthy provinceData then .ok provinceData
      else .error (.err (provinceMsg1 province region))

/-- Variant 1 `_getCity` (src lines 107 to 116):
`provinceData.cities?.[city]` then a truthiness check. -/
def _getCity (s : GeoState1) (region province city : String) : Except JsError JsVal :=
  match _getProvince s region province with
  | .error e => .error e
  | .ok provinceData =>
    match jsGet provinceData "cities" with
    | .error e => .error e
    | .ok citiesVal =>
      let cityData := optGet citiesVal city
      if truthy cityData then .ok cityData
      else .error (.err (cityMsg1 city province region))

/-- Variant 1 `getRegions` (src lines 122 to 125):
`Object.keys(this.data.regions)` after `ensureDataLoaded`. -/
def getRegions (s : GeoState1) : Except JsError (List String) :=
  match ensureDataLoaded s with
  | .error e => .error e
  | .ok _ =>
    match jsGet s.data "regions" with
    | .error e => .error e
    | .ok regions => objectKeys regions

/-- Variant 1 `getProvincesByRegion` (src lines 132 to 136):
`Object.keys(regionData.provinces)`. -/
def getProvincesByRegion (s : GeoState1) (region : String) : Except JsError (List String) :=
  match ensureDataLoaded s with
  | .error e => .error e
  | .ok _ =>
    match _getRegion s region with
    | .error e => .error e
    | .ok regionData =>
      match jsGet regionData "provinces" with
      | .error e => .error e
      | .ok provinces => objectKeys provinces

/-- Variant 1 `getCitiesByProvince` (src lines 144 to 148):
`Object.keys(provinceData.cities)`. -/
def getCitiesByProvince (s : GeoState1) (region province : String) :
    Except JsError (List String) :=
  match ensureDataLoaded s with
  | .error e => .error e
  | .ok _ =>
    match _getProvince s region province with
    | .error e => .error e
    | .ok provinceData =>
      match jsGet provinceData "cities" with
      | .error e => .error e
      | .ok cities => objectKeys cities

/-- Variant 1 `getBarangaysByCity` (src lines 157 to 161):
returns `cityData.barangays` as-is. -/
def getBarangaysByCity (s : GeoState1) (region province city : String) :
    Except JsError JsVal :=
  match ensureDataLoaded s with
  | .error e => .error e
  | .ok _ =>
    match _getCity s region province city with
    | .error e => .error e
    | .ok cityData => jsGet cityData "barangays"

end V1

/-- State of a variant 2 `PHGeolocation` instance: `this.data`,
`this.isLoading`, `this.isInitialized`, plus the fetch counter. -/
structure GeoState2 where
  data : JsVal
  isLoading : Bool
  isInitialized : Bool
  fetchCount : Nat

/-- Freshly constructed variant 2 state (src lines 178 to 181). -/
def fresh2 : GeoState2 :=
  { data := .null, isLoading := false, isInitialized := false, fetchCount := 0 }

namespace V2

/-- Variant 2 `loadGeo` (src lines 193 to 216), run to completion with the
given fetch outcome: body guarded by `!this.data && !this.isLoading`; the
`finally` clears `isLoading`; a skipped body resolves successfully at once. -/
def loadGeo (s : GeoState2) (resp : FetchOutcome) : GeoState2 × Except JsError Unit :=
  if !truthy s.data && !s.isLoading then
    let s' := { s with fetchCount := s.fetchCount + 1 }
    match resp with
    | .notOk status statusText =>
      ({ s' with isLoading := false }, .error (.err (fetchFailMsg2 status statusText)))
    | .okMalformed => ({ s' with isLoading := false }, .error .parseError)
    | .okJson v => ({ s' with data := v, isLoading := false }, .ok ())
  else (s, .ok ())

/-- Variant 2 init routine (src lines 222 to 237): when `isInitialized` it
returns the cached, already-settled promise; otherwise it runs `loadGeo`,
sets the flag on success, and on failure rethrows a wrapped error. -/
def initClient (s : GeoState2) (resp : FetchOutcome) : GeoState2 × Except JsError Unit :=
  if s.isInitialized then (s, .ok ())
  else
    match loadGeo s resp with
    | (s', .ok _) => ({ s' with isInitialized := true }, .ok ())
    | (s', .error e) =>
      (s', .error (.err ("PH-Geo: error - Initialization failed: " ++ e.message)))

/-- Variant 2 `ensureDataLoaded` (src lines 315 to 321): throws when
`this.data` is falsy. -/
def ensureDataLoaded (s : GeoState2) : Except JsError Unit :=
  if truthy s.data then .ok () else .error (.err notLoadedMsg)

/-- Variant 2 `getRegions` (src lines 244 to 247): returns `this.data.regions`
itself (the mapping object, not its key list). -/
def getRegions (s : GeoState2) : Except JsError JsVal :=
  match ensureDataLoaded s with
  | .error e => .error e
  | .ok _ => jsGet s.data "regions"

/-- Variant 2 `getProvincesByRegion` (src lines 255 to 261): truthiness check
on `this.data.regions[region]`, then `... .provinces || \x7b\x7d`. -/
def getProvincesByRegion (s : GeoState2) (region : String) : Except JsError JsVal :=
  match ensureDataLoaded s with
  | .error e => .error e
  | .ok _ =>
    match jsGet s.data "regions" with
    | .error e => .error e
    | .ok regionsVal =>
      match jsGet regionsVal region with
      | .error e => .error e
      | .ok regionVal =>
        if !truthy regionVal then .error (.err (regionMsg2 region))
        else
          match jsGet regionVal "provinces" with
          | .error e => .error e
          | .ok provinces => .ok (jsOr provinces (.obj []))

/-- Variant 2 `getCitiesByProvince` (src lines 270 to 281): region then
province truthiness checks (the province index is a plain access that can
throw if the `provinces` field is missing), then `... .cities || \x7b\x7d`. -/
def getCitiesByProvince (s : GeoState2) (region province : String) : Except JsError JsVal :=
  match ensureDataLoaded s with
  | .error e => .error e
  | .ok _ =>
    match jsGet s.data "regions" with
    | .error e => .error e
    | .ok regionsVal =>
      match jsGet regionsVal region with
      | .error e => .error e
      | .ok regionVal =>
        if !truthy regionVal then .error (.err (regionMsg2 region))
        else
          match jsGet regionVal "provinces" with
          | .error e => .error e
          | .ok provincesVal =>
            match jsGet provincesVal province with
            | .error e => .error e
            | .ok provinceVal =>
              if !truthy provinceVal then .error (.err (provinceMsg2 province region))
              else
                match jsGet provinceVal "cities" with
                | .error e => .error e
                | .ok cities => .ok (jsOr cities (.obj []))

/-- Variant 2 `getBarangaysByCity` (src lines 291 to 309): region, province
and city truthiness checks in order, then `... .barangays || []`. -/
def getBarangaysByCity (s : GeoState2) (region province city : String) :
    Except JsError JsVal :=
  match ensureDataLoaded s with
  | .error e => .error e
  | .ok _ =>
    match jsGet s.data "regions" with
    | .error e => .error e
    | .ok regionsVal =>
      match jsGet regionsVal region with
      | .error e => .error e
      | .ok regionVal =>
        if !truthy regionVal then .error (.err (regionMsg2 region))
        else
          match jsGet regionVal "provinces" with
          | .error e => .error e
          | .ok provincesVal =>
            match jsGet provincesVal province with
            | .error e => .error e
            | .ok provinceVal =>
              if !truthy provinceVal then .error (.err (provinceMsg2 province region))
              else
                match jsGet provinceVal "cities" with
                | .error e => .error e
                | .ok citiesVal =>
                  match jsGet citiesVal city with
                  | .error e => .error e
                  | .ok cityVal =>
                    if !truthy cityVal then .error (.err (cityMsg2 city province))
                    else
                      match jsGet cityVal "barangays" with
                      | .error e => .error e
                      | .ok barangays => .ok (jsOr barangays (.arr []))

end V2

/-!
Event-loop model of concurrent `loadGeo` calls. A JS `async` function runs
synchronously up to its first `await`; so when N callers invoke `loadGeo`
while no load has yet completed, each caller's prologue (the guard, and in
the fetching branch the issuing of the request) runs atomically, one caller
after another, before any fetch settles. We model one prologue per variant
and iterate it; the returned flag records whether that caller issued a
fetch and is now awaiting it (`true`), or returned at once (`false`).
-/

/-- Synchronous prologue of a variant 1 `loadGeo` call (src lines 26 to 32):
when `this.data` is falsy the caller issues its own fetch and awaits it;
otherwise it returns immediately. -/
def loadGeoStart1 (s : GeoState1) : GeoState1 × Bool :=
  if truthy s.data then (s, false)
  else ({ s with fetchCount := s.fetchCount + 1 }, true)

/-- Synchronous prologue of a variant 2 `loadGeo` call (src lines 194 to 198):
the first caller flips `isLoading` and issues the fetch; any caller arriving
while `isLoading` holds skips the whole body and its promise resolves
successfully at once, before the fetch settles. -/
def loadGeoStart2 (s : GeoState2) : GeoState2 × Bool :=
  if !truthy s.data && !s.isLoading then
    ({ s with isLoading := true, fetchCount := s.fetchCount + 1 }, true)
  else (s, false)

/-- N variant 1 callers running their prologues back to back (no fetch has
settled in between); returns the final state and, per caller, whether that
caller is awaiting a fetch it issued. -/
def concurrentCalls1 : Nat → GeoState1 → GeoState1 × List Bool
  | 0, s => (s, [])
  | n + 1, s =>
    let p := loadGeoStart1 s
    let rest := concurrentCalls1 n p.1
    (rest.1, p.2 :: rest.2)

/-- N variant 2 callers running their prologues back to back. -/
def concurrentCalls2 : Nat → GeoState2 → GeoState2 × List Bool
  | 0, s => (s, [])
  | n + 1, s =>
    let p := loadGeoStart2 s
    let rest := concurrentCalls2 n p.1
    (rest.1, p.2 :: rest.2)

/-- What a caller's own promise reports once the single in-flight fetch
settles with success (`fetchSucceeds = true`) or failure: a caller that
awaited the fetch observes its outcome; a caller whose prologue skipped the
body already resolved successfully, whatever the fetch later does. -/
def callerOutcome (fetchSucceeds : Bool) (awaited : Bool) : Bool :=
  if awaited then fetchSucceeds else true

/-!
Structured datasets conforming to the schema of spec section 3, and their
embedding into `JsVal` (the value `JSON.parse` would return for them).
-/

/-- Schema-level city: an ordered sequence of barangay names. -/
structure City where
  barangays : List String
deriving DecidableEq

/-- Schema-level province: insertion-ordered mapping of city names. -/
structure Province where
  cities : List (String × City)
deriving DecidableEq

/-- Schema-level region: insertion-ordered mapping of province names. -/
structure Region where
  provinces : List (String × Province)
deriving DecidableEq

/-- Schema-level dataset: insertion-ordered mapping of region names. -/
structure Dataset where
  regions : List (String × Region)
deriving DecidableEq

/-- Embedding of a city into the parsed-JSON value space. -/
def City.toJs (c : City) : JsVal :=
  .obj [("barangays", .arr (c.barangays.map (fun b => .str b)))]

/-- Embedding of a province. -/
def Province.toJs (p : Province) : JsVal :=
  .obj [("cities", .obj (p.cities.map (fun kv => (kv.1, kv.2.toJs))))]

/-- Embedding of a region. -/
def Region.toJs (r : Region) : JsVal :=
  .obj [("provinces", .obj (r.provinces.map (fun kv => (kv.1, kv.2.toJs))))]

/-- Embedding of a dataset. -/
def Dataset.toJs (d : Dataset) : JsVal :=
  .obj [("regions", .obj (d.regions.map (fun kv => (kv.1, kv.2.toJs))))]

/-- Variant 1 client state after a successful load of dataset `d`. -/
def loadedState1 (d : Dataset) : GeoState1 :=
  { data := d.toJs, isInitialized := true, fetchCount := 1 }

/-- Variant 2 client state after a successful load of dataset `d`. -/
def loadedState2 (d : Dataset) : GeoState2 :=
  { data := d.toJs, isLoading := false, isInitialized := true, fetchCount := 1 }

/-- Variant 1 client state whose data is an arbitrary parsed object with the
given `regions` fields (used for properties about schema-violating data). -/
def rawState1 (regions : List (String × JsVal)) : GeoState1 :=
  { data := .obj [("regions", .obj regions)], isInitialized := true, fetchCount := 1 }

/-- Variant 2 counterpart of `rawState1`. -/
def rawState2 (regions : List (String × JsVal)) : GeoState2 :=
  { data := .obj [("regions", .obj regions)], isLoading := false,
    isInitialized := true, fetchCount := 1 }

/-- Sample city from the spec's scenario (spec section 8). -/
def sampleCity : City := { barangays := ["Bagong Silangan", "Commonwealth"] }

/-- Sample province `"Metro Manila"`. -/
def sampleProvince : Province := { cities := [("Quezon City", sampleCity)] }

/-- Sample region `"NCR"`. -/
def sampleRegion : Region := { provinces := [("Metro Manila", sampleProvince)] }

/-- The sample dataset of the spec's scenarios. -/
def sampleDataset : Dataset := { regions := [("NCR", sampleRegion)] }

/-!
Helper lemmas about association lookup and the dataset embedding.
-/

theorem assocFind_map {α β : Type} (f : α → β) (k : String) :
    ∀ l : List (String × α),
      assocFind k (l.map (fun kv => (kv.1, f kv.2))) = (assocFind k l).map f
  | [] => rfl
  | (a, v) :: rest => by
    by_cases h : a = k <;> simp [assocFind, h, assocFind_map f k rest]

theorem assocFind_isSome_iff_mem {α : Type} (k : String) :
    ∀ l : List (String × α), (assocFind k l).isSome ↔ k ∈ l.map Prod.fst
  | [] => by simp [assocFind]
  | (a, v) :: rest => by
    by_cases h : a = k
    · simp [assocFind, h]
    · simp [assocFind, h, Ne.symm h, assocFind_isSome_iff_mem k rest]

theorem assocFind_eq_none_iff {α : Type} (k : String) (l : List (String × α)) :
    assocFind k l = none ↔ k ∉ l.map Prod.fst := by
  rw [← assocFind_isSome_iff_mem]
  cases assocFind k l <;> simp

theorem mem_of_assocFind_some {α : Type} {k : String} {l : List (String × α)} {v : α}
    (h : assocFind k l = some v) : k ∈ l.map Prod.fst := by
  rw [← assocFind_isSome_iff_mem, h]
  rfl

theorem keys_map_emb {α β : Type} (f : α → β) (l : List (String × α)) :
    (l.map (fun kv => (kv.1, f kv.2))).map Prod.fst = l.map Prod.fst := by
  induction l with
  | nil => rfl
  | cons kv rest ih => simp [ih]

theorem jsGet_obj (fields : List (String × JsVal)) (k : String) :
    jsGet (.obj fields) k = .ok (optGet (.obj fields) k) := rfl

theorem jsGet_fn (n k : String) : jsGet (.fn n) k = .ok (protoLookup k) := rfl

theorem optGet_emb {α : Type} (f : α → JsVal) (l : List (String × α)) (k : String) :
    optGet (.obj (l.map (fun kv => (kv.1, f kv.2)))) k
      = ((assocFind k l).map f).getD (protoLookup k) := by
  simp [optGet, assocFind_map]

theorem protoLookup_provinces : protoLookup "provinces" = .undefined := rfl

theorem protoLookup_cities : protoLookup "cities" = .undefined := rfl

theorem protoLookup_barangays : protoLookup "barangays" = .undefined := rfl

theorem ne_proto_of_mem {k : String} (h : k ∈ objectProtoProps) : k ≠ "__proto__" := by
  intro hk
  subst hk
  exact absurd h (by decide)

theorem protoLookup_of_mem {k : String} (h : k ∈ objectProtoProps) :
    protoLookup k = .fn k := by
  simp [protoLookup, ne_proto_of_mem h, h]

theorem protoLookup_of_not_mem {k : String} (h : k ∉ objectProtoNames) :
    protoLookup k = .undefined := by
  have h1 : k ≠ "__proto__" := fun hk => h (hk ▸ List.mem_cons_self _ _)
  have h2 : k ∉ objectProtoProps := fun hm => h (List.mem_cons_of_mem _ hm)
  simp [protoLookup, h1, h2]

theorem mem_props_of_mem_names {k : String} (h : k ∈ objectProtoNames)
    (hne : k ≠ "__proto__") : k ∈ objectProtoProps := by
  cases List.mem_cons.1 h with
  | inl h' => exact absurd h' hne
  | inr h' => exact h'

theorem truthy_protoLookup {k : String} (h : k ∈ objectProtoNames) :
    truthy (protoLookup k) = true := by
  by_cases hne : k = "__proto__"
  · subst hne
    rfl
  · simp [protoLookup_of_mem (mem_props_of_mem_names h hne), truthy]

theorem jsGet_protoLookup_provinces {k : String} (h : k ∈ objectProtoNames) :
    jsGet (protoLookup k) "provinces" = .ok .undefined := by
  by_cases hne : k = "__proto__"
  · subst hne
    rfl
  · simp [protoLookup_of_mem (mem_props_of_mem_names h hne), jsGet, optGet,
      protoLookup_provinces]

theorem truthy_obj (l : List (String × JsVal)) : truthy (.obj l) = true := rfl

theorem truthy_arr (l : List JsVal) : truthy (.arr l) = true := rfl

theorem truthy_fn (n : String) : truthy (.fn n) = true := rfl

theorem truthy_undefined : truthy .undefined = false := rfl

theorem truthy_region (reg : Region) : truthy reg.toJs = true := rfl

theorem truthy_province (p : Province) : truthy p.toJs = true := rfl

theorem truthy_city (c : City) : truthy c.toJs = true := rfl

theorem truthy_dataset (d : Dataset) : truthy d.toJs = true := rfl

/-- Reading `regions` off a loaded structured dataset yields the embedded
region mapping. -/
theorem optGet_data_regions (d : Dataset) :
    optGet d.toJs "regions" = .obj (d.regions.map (fun kv => (kv.1, Region.toJs kv.2))) := by
  simp [Dataset.toJs, optGet, assocFind]

theorem jsGet_data_regions (d : Dataset) :
    jsGet d.toJs "regions" = .ok (.obj (d.regions.map (fun kv => (kv.1, Region.toJs kv.2)))) := by
  rw [Dataset.toJs, jsGet_obj, ← Dataset.toJs, optGet_data_regions]

theorem jsGet_region_provinces (reg : Region) :
    jsGet reg.toJs "provinces"
      = .ok (.obj (reg.provinces.map (fun kv => (kv.1, Province.toJs kv.2)))) := by
  simp [Region.toJs, jsGet, optGet, assocFind]

theorem jsGet_province_cities (p : Province) :
    jsGet p.toJs "cities"
      = .ok (.obj (p.cities.map (fun kv => (kv.1, City.toJs kv.2)))) := by
  simp [Province.toJs, jsGet, optGet, assocFind]

theorem jsGet_city_barangays (c : City) :
    jsGet c.toJs "barangays" = .ok (.arr (c.barangays.map (fun b => .str b))) := by
  simp [City.toJs, jsGet, optGet, assocFind]

/-!
Characterization of the variant 1 lookup helpers on loaded structured data.
-/

theorem getRegion1_some (d : Dataset) (r : String) (reg : Region)
    (h : assocFind r d.regions = some reg) :
    V1._getRegion (loadedState1 d) r = .ok reg.toJs := by
  simp only [V1._getRegion, loadedState1, optGet_data_regions, optGet_emb, h]
  simp [truthy_region]

theorem getRegion1_none (d : Dataset) (r : String)
    (h : assocFind r d.regions = none) (hp : r ∉ objectProtoNames) :
    V1._getRegion (loadedState1 d) r = .error (.err (regionMsg1 r)) := by
  simp only [V1._getRegion, loadedState1, optGet_data_regions, optGet_emb, h]
  simp [protoLookup_of_not_mem hp, truthy]

theorem getRegion1_inherited (d : Dataset) (r : String)
    (h : assocFind r d.regions = none) (hp : r ∈ objectProtoNames) :
    V1._getRegion (loadedState1 d) r = .ok (protoLookup r) := by
  simp only [V1._getRegion, loadedState1, optGet_data_regions, optGet_emb, h]
  simp [truthy_protoLookup hp]

theorem getProvince1_some_some (d : Dataset) (r p : String) (reg : Region) (prov : Province)
    (h : assocFind r d.regions = some reg) (hp : assocFind p reg.provinces = some prov) :
    V1._getProvince (loadedState1 d) r p = .ok prov.toJs := by
  simp only [V1._getProvince, getRegion1_some d r reg h, jsGet_region_provinces,
    optGet_emb, hp]
  simp [truthy_province]

theorem getProvince1_some_none (d : Dataset) (r p : String) (reg : Region)
    (h : assocFind r d.regions = some reg) (hp : assocFind p reg.provinces = none)
    (hpp : p ∉ objectProtoNames) :
    V1._getProvince (loadedState1 d) r p = .error (.err (provinceMsg1 p r)) := by
  simp only [V1._getProvince, getRegion1_some d r reg h, jsGet_region_provinces,
    optGet_emb, hp]
  simp [protoLookup_of_not_mem hpp, truthy]

theorem getProvince1_region_none (d : Dataset) (r p : String)
    (h : assocFind r d.regions = none) (hr : r ∉ objectProtoNames) :
    V1._getProvince (loadedState1 d) r p = .error (.err (regionMsg1 r)) := by
  simp only [V1._getProvince, getRegion1_none d r h hr]

theorem getCity1_some (d : Dataset) (r p c : String) (reg : Region) (prov : Province)
    (city : City) (h : assocFind r d.regions = some reg)
    (hp : assocFind p reg.provinces = some prov) (hc : assocFind c prov.cities = some city) :
    V1._getCity (loadedState1 d) r p c = .ok city.toJs := by
  simp only [V1._getCity, getProvince1_some_some d r p reg prov h hp, jsGet_province_cities,
    optGet_emb, hc]
  simp [truthy_city]

theorem getCity1_city_none (d : Dataset) (r p c : String) (reg : Region) (prov : Province)
    (h : assocFind r d.regions = some reg) (hp : assocFind p reg.provinces = some prov)
    (hc : assocFind c prov.cities = none) (hcp : c ∉ objectProtoNames) :
    V1._getCity (loadedState1 d) r p c = .error (.err (cityMsg1 c p r)) := by
  simp only [V1._getCity, getProvince1_some_some d r p reg prov h hp, jsGet_province_cities,
    optGet_emb, hc]
  simp [protoLookup_of_not_mem hcp, truthy]

/-!
Characterization of the variant 1 queries on loaded structured data.
-/

theorem getRegions1_eq (d : Dataset) :
    V1.getRegions (loadedState1 d) = .ok (d.regions.map Prod.fst) := by
  have hd : jsGet (loadedState1 d).data "regions"
      = .ok (.obj (d.regions.map (fun kv => (kv.1, Region.toJs kv.2)))) :=
    jsGet_data_regions d
  simp only [V1.getRegions, V1.ensureDataLoaded, hd, objectKeys, keys_map_emb]

theorem getProvinces1_some (d : Dataset) (r : String) (reg : Region)
    (h : assocFind r d.regions = some reg) :
    V1.getProvincesByRegion (loadedState1 d) r = .ok (reg.provinces.map Prod.fst) := by
  simp only [V1.getProvincesByRegion, V1.ensureDataLoaded, getRegion1_some d r reg h,
    jsGet_region_provinces, objectKeys, keys_map_emb]

theorem getProvinces1_none (d : Dataset) (r : String)
    (h : assocFind r d.regions = none) (hr : r ∉ objectProtoNames) :
    V1.getProvincesByRegion (loadedState1 d) r = .error (.err (regionMsg1 r)) := by
  simp only [V1.getProvincesByRegion, V1.ensureDataLoaded, getRegion1_none d r h hr]

theorem getProvinces1_inherited (d : Dataset) (r : String)
    (h : assocFind r d.regions = none) (hr : r ∈ objectProtoNames) :
    V1.getProvincesByRegion (loadedState1 d) r = .error .typeError := by
  simp only [V1.getProvincesByRegion, V1.ensureDataLoaded, getRegion1_inherited d r h hr,
    jsGet_protoLookup_provinces hr, objectKeys]

theorem getCities1_some (d : Dataset) (r p : String) (reg : Region) (prov : Province)
    (h : assocFind r d.regions = some reg) (hp : assocFind p reg.provinces = some prov) :
    V1.getCitiesByProvince (loadedState1 d) r p = .ok (prov.cities.map Prod.fst) := by
  simp only [V1.getCitiesByProvince, V1.ensureDataLoaded,
    getProvince1_some_some d r p reg prov h hp, jsGet_province_cities, objectKeys,
    keys_map_emb]

theorem getCities1_prov_none (d : Dataset) (r p : String) (reg : Region)
    (h : assocFind r d.regions = some reg) (hp : assocFind p reg.provinces = none)
    (hpp : p ∉ objectProtoNames) :
    V1.getCitiesByProvince (loadedState1 d) r p = .error (.err (provinceMsg1 p r)) := by
  simp only [V1.getCitiesByProvince, V1.ensureDataLoaded,
    getProvince1_some_none d r p reg h hp hpp]

theorem getCities1_region_none (d : Dataset) (r p : String)
    (h : assocFind r d.regions = none) (hr : r ∉ objectProtoNames) :
    V1.getCitiesByProvince (loadedState1 d) r p = .error (.err (regionMsg1 r)) := by
  simp only [V1.getCitiesByProvince, V1.ensureDataLoaded, getProvince1_region_none d r p h hr]

theorem getBar1_some (d : Dataset) (r p c : String) (reg : Region) (prov : Province)
    (city : City) (h : assocFind r d.regions = some reg)
    (hp : assocFind p reg.provinces = some prov) (hc : assocFind c prov.cities = some city) :
    V1.getBarangaysByCity (loadedState1 d) r p c
      = .ok (.arr (city.barangays.map (fun b => .str b))) := by
  simp only [V1.getBarangaysByCity, V1.ensureDataLoaded,
    getCity1_some d r p c reg prov city h hp hc, jsGet_city_barangays]

theorem getBar1_city_none (d : Dataset) (r p c : String) (reg : Region) (prov : Province)
    (h : assocFind r d.regions = some reg) (hp : assocFind p reg.provinces = some prov)
    (hc : assocFind c prov.cities = none) (hcp : c ∉ objectProtoNames) :
    V1.getBarangaysByCity (loadedState1 d) r p c = .error (.err (cityMsg1 c p r)) := by
  simp only [V1.getBarangaysByCity, V1.ensureDataLoaded,
    getCity1_city_none d r p c reg prov h hp hc hcp]

theorem getBar1_prov_none (d : Dataset) (r p c : String) (reg : Region)
    (h : assocFind r d.regions = some reg) (hp : assocFind p reg.provinces = none)
    (hpp : p ∉ objectProtoNames) :
    V1.getBarangaysByCity (loadedState1 d) r p c = .error (.err (provinceMsg1 p r)) := by
  simp only [V1.getBarangaysByCity, V1.ensureDataLoaded, V1._getCity,
    getProvince1_some_none d r p reg h hp hpp]

theorem getBar1_region_none (d : Dataset) (r p c : String)
    (h : assocFind r d.regions = none) (hr : r ∉ objectProtoNames) :
    V1.getBarangaysByCity (loadedState1 d) r p c = .error (.err (regionMsg1 r)) := by
  simp only [V1.getBarangaysByCity, V1.ensureDataLoaded, V1._getCity,
    getProvince1_region_none d r p h hr]

/-!
Characterization of the variant 2 queries on loaded structured data.
-/

theorem ensure2_loaded (d : Dataset) : V2.ensureDataLoaded (loadedState2 d) = .ok () := by
  simp [V2.ensureDataLoaded, loadedState2, truthy_dataset]

theorem ensure2_notLoaded (s : GeoState2) (h : truthy s.data = false) :
    V2.ensureDataLoaded s = .error (.err notLoadedMsg) := by
  simp [V2.ensureDataLoaded, h]

theorem jsGet_regions2 (d : Dataset) :
    jsGet (loadedState2 d).data "regions"
      = .ok (.obj (d.regions.map (fun kv => (kv.1, Region.toJs kv.2)))) :=
  jsGet_data_regions d

theorem getRegions2_eq (d : Dataset) :
    V2.getRegions (loadedState2 d)
      = .ok (.obj (d.regions.map (fun kv => (kv.1, Region.toJs kv.2)))) := by
  simp only [V2.getRegions, ensure2_loaded, jsGet_regions2]

theorem getProvinces2_some (d : Dataset) (r : String) (reg : Region)
    (h : assocFind r d.regions = some reg) :
    V2.getProvincesByRegion (loadedState2 d) r
      = .ok (.obj (reg.provinces.map (fun kv => (kv.1, Province.toJs kv.2)))) := by
  simp [V2.getProvincesByRegion, ensure2_loaded, jsGet_regions2, jsGet_obj, optGet_emb,
    h, truthy_region, jsGet_region_provinces, jsOr, truthy_obj]

theorem getProvinces2_none (d : Dataset) (r : String)
    (h : assocFind r d.regions = none) (hr : r ∉ objectProtoNames) :
    V2.getProvincesByRegion (loadedState2 d) r = .error (.err (regionMsg2 r)) := by
  simp [V2.getProvincesByRegion, ensure2_loaded, jsGet_regions2, jsGet_obj, optGet_emb,
    h, protoLookup_of_not_mem hr, truthy_undefined]

theorem getProvinces2_inherited (d : Dataset) (r : String)
    (h : assocFind r d.regions = none) (hr : r ∈ objectProtoNames) :
    V2.getProvincesByRegion (loadedState2 d) r = .ok (.obj []) := by
  simp [V2.getProvincesByRegion, ensure2_loaded, jsGet_regions2, jsGet_obj, optGet_emb,
    h, truthy_protoLookup hr, jsGet_protoLookup_provinces hr, jsOr, truthy_undefined]

theorem getCities2_some (d : Dataset) (r p : String) (reg : Region) (prov : Province)
    (h : assocFind r d.regions = some reg) (hp : assocFind p reg.provinces = some prov) :
    V2.getCitiesByProvince (loadedState2 d) r p
      = .ok (.obj (prov.cities.map (fun kv => (kv.1, City.toJs kv.2)))) := by
  simp [V2.getCitiesByProvince, ensure2_loaded, jsGet_regions2, jsGet_obj, optGet_emb,
    h, hp, truthy_region, truthy_province, jsGet_region_provinces, jsGet_province_cities,
    jsOr, truthy_obj]

theorem getCities2_prov_none (d : Dataset) (r p : String) (reg : Region)
    (h : assocFind r d.regions = some reg) (hp : assocFind p reg.provinces = none)
    (hpp : p ∉ objectProtoNames) :
    V2.getCitiesByProvince (loadedState2 d) r p = .error (.err (provinceMsg2 p r)) := by
  simp [V2.getCitiesByProvince, ensure2_loaded, jsGet_regions2, jsGet_obj, optGet_emb,
    h, hp, truthy_region, jsGet_region_provinces, protoLookup_of_not_mem hpp,
    truthy_undefined]

theorem getCities2_region_none (d : Dataset) (r p : String)
    (h : assocFind r d.regions = none) (hr : r ∉ objectProtoNames) :
    V2.getCitiesByProvince (loadedState2 d) r p = .error (.err (regionMsg2 r)) := by
  simp [V2.getCitiesByProvince, ensure2_loaded, jsGet_regions2, jsGet_obj, optGet_emb,
    h, protoLookup_of_not_mem hr, truthy_undefined]

theorem getBar2_some (d : Dataset) (r p c : String) (reg : Region) (prov : Province)
    (city : City) (h : assocFind r d.regions = some reg)
    (hp : assocFind p reg.provinces = some prov) (hc : assocFind c prov.cities = some city) :
    V2.getBarangaysByCity (loadedState2 d) r p c
      = .ok (.arr (city.barangays.map (fun b => .str b))) := by
  simp [V2.getBarangaysByCity, ensure2_loaded, jsGet_regions2, jsGet_obj, optGet_emb,
    h, hp, hc, truthy_region, truthy_province, truthy_city, jsGet_region_provinces,
    jsGet_province_cities, jsGet_city_barangays, jsOr, truthy_arr]

theorem getBar2_city_none (d : Dataset) (r p c : String) (reg : Region) (prov : Province)
    (h : assocFind r d.regions = some reg) (hp : assocFind p reg.provinces = some prov)
    (hc : assocFind c prov.cities = none) (hcp : c ∉ objectProtoNames) :
    V2.getBarangaysByCity (loadedState2 d) r p c = .error (.err (cityMsg2 c p)) := by
  simp [V2.getBarangaysByCity, ensure2_loaded, jsGet_regions2, jsGet_obj, optGet_emb,
    h, hp, hc, truthy_region, truthy_province, jsGet_region_provinces,
    jsGet_province_cities, protoLookup_of_not_mem hcp, truthy_undefined]

theorem getBar2_prov_none (d : Dataset) (r p c : String) (reg : Region)
    (h : assocFind r d.regions = some reg) (hp : assocFind p reg.provinces = none)
    (hpp : p ∉ objectProtoNames) :
    V2.getBarangaysByCity (loadedState2 d) r p c = .error (.err (provinceMsg2 p r)) := by
  simp [V2.getBarangaysByCity, ensure2_loaded, jsGet_regions2, jsGet_obj, optGet_emb,
    h, hp, truthy_region, jsGet_region_provinces, protoLookup_of_not_mem hpp,
    truthy_undefined]

theorem getBar2_region_none (d : Dataset) (r p c : String)
    (h : assocFind r d.regions = none) (hr : r ∉ objectProtoNames) :
    V2.getBarangaysByCity (loadedState2 d) r p c = .error (.err (regionMsg2 r)) := by
  simp [V2.getBarangaysByCity, ensure2_loaded, jsGet_regions2, jsGet_obj, optGet_emb,
    h, protoLookup_of_not_mem hr, truthy_undefined]

theorem truthy_null : truthy .null = false := rfl

theorem optGet_single (k : String) (x : JsVal) : optGet (.obj [(k, x)]) k = x := by
  simp [optGet, assocFind]

/-!
Behaviour of the concurrent-call models.
-/

theorem concCalls1_char : ∀ (n : Nat) (s : GeoState1), truthy s.data = false →
    (concurrentCalls1 n s).1.fetchCount = s.fetchCount + n
  ∧ (concurrentCalls1 n s).2 = List.replicate n true
  | 0, s, _ => by simp [concurrentCalls1]
  | n + 1, s, h => by
    have h' : truthy ({ s with fetchCount := s.fetchCount + 1 } : GeoState1).data = false := h
    obtain ⟨ih1, ih2⟩ :=
      concCalls1_char n { s with fetchCount := s.fetchCount + 1 } h'
    refine ⟨?_, ?_⟩
    · simp only [concurrentCalls1, loadGeoStart1, h]
      simp only [Bool.false_eq_true, if_false, ih1]
      omega
    · simp [concurrentCalls1, loadGeoStart1, h, ih2, List.replicate_succ]

theorem concCalls2_loading : ∀ (n : Nat) (s : GeoState2), s.isLoading = true →
    concurrentCalls2 n s = (s, List.replicate n false)
  | 0, s, _ => by simp [concurrentCalls2]
  | n + 1, s, h => by
    simp [concurrentCalls2, loadGeoStart2, h, concCalls2_loading n s h,
      List.replicate_succ]

theorem loadGeoStart2_fresh (s : GeoState2) (h : truthy s.data = false)
    (hl : s.isLoading = false) :
    loadGeoStart2 s = ({ s with isLoading := true, fetchCount := s.fetchCount + 1 }, true) := by
  simp [loadGeoStart2, h, hl]

theorem concCalls2_char (n : Nat) (s : GeoState2) (h : truthy s.data = false)
    (hl : s.isLoading = false) :
    (concurrentCalls2 (n + 1) s).1.fetchCount = s.fetchCount + 1
  ∧ (concurrentCalls2 (n + 1) s).2 = true :: List.replicate n false := by
  have hrest := concCalls2_loading n
    { s with isLoading := true, fetchCount := s.fetchCount + 1 } rfl
  simp [concurrentCalls2, loadGeoStart2_fresh s h hl, hrest]

/-!
Behaviour of a single failing load, shared by the C3 argument.
-/

theorem loadGeo1_failing (s : GeoState1) (resp : FetchOutcome)
    (h : truthy s.data = false) (hf : resp.failing = true) :
    (V1.loadGeo s resp).1 = { s with fetchCount := s.fetchCount + 1 }
  ∧ ∃ e, (V1.loadGeo s resp).2 = .error e := by
  cases resp with
  | okJson v => simp [FetchOutcome.failing] at hf
  | notOk status statusText =>
    exact ⟨by simp [V1.loadGeo, h], .err (fetchFailMsg1 status statusText),
      by simp [V1.loadGeo, h]⟩
  | okMalformed => exact ⟨by simp [V1.loadGeo, h], .parseError, by simp [V1.loadGeo, h]⟩

theorem loadGeo1_fetches (s : GeoState1) (resp : FetchOutcome)
    (h : truthy s.data = false) :
    (V1.loadGeo s resp).1.fetchCount = s.fetchCount + 1 := by
  cases resp <;> simp [V1.loadGeo, h]

theorem initClient1_failing (s : GeoState1) (resp : FetchOutcome)
    (h : truthy s.data = false) (hf : resp.failing = true) :
    (V1.initClient s resp).1 = { s with fetchCount := s.fetchCount + 1 }
  ∧ ∃ e, (V1.initClient s resp).2 = .error e := by
  cases resp with
  | okJson v => simp [FetchOutcome.failing] at hf
  | notOk status statusText =>
    exact ⟨by simp [V1.initClient, V1.loadGeo, h], .err (fetchFailMsg1 status statusText),
      by simp [V1.initClient, V1.loadGeo, h]⟩
  | okMalformed =>
    exact ⟨by simp [V1.initClient, V1.loadGeo, h], .parseError,
      by simp [V1.initClient, V1.loadGeo, h]⟩

theorem loadGeo2_failing (s : GeoState2) (resp : FetchOutcome)
    (h : truthy s.data = false) (hl : s.isLoading = false) (hf : resp.failing = true) :
    (V2.loadGeo s resp).1 = { s with fetchCount := s.fetchCount + 1 }
  ∧ ∃ e, (V2.loadGeo s resp).2 = .error e := by
  cases resp with
  | okJson v => simp [FetchOutcome.failing] at hf
  | notOk status statusText =>
    exact ⟨by simp [V2.loadGeo, h, hl], .err (fetchFailMsg2 status statusText),
      by simp [V2.loadGeo, h, hl]⟩
  | okMalformed => exact ⟨by simp [V2.loadGeo, h, hl], .parseError, by simp [V2.loadGeo, h, hl]⟩

theorem loadGeo2_fetches (s : GeoState2) (resp : FetchOutcome)
    (h : truthy s.data = false) (hl : s.isLoading = false) :
    (V2.loadGeo s resp).1.fetchCount = s.fetchCount + 1 := by
  cases resp <;> simp [V2.loadGeo, h, hl]

theorem initClient2_failing (s : GeoState2) (resp : FetchOutcome)
    (h : truthy s.data = false) (hl : s.isLoading = false) (hi : s.isInitialized = false)
    (hf : resp.failing = true) :
    (V2.initClient s resp).1 = { s with fetchCount := s.fetchCount + 1 }
  ∧ ∃ e, (V2.initClient s resp).2 = .error e := by
  cases resp with
  | okJson v => simp [FetchOutcome.failing] at hf
  | notOk status statusText =>
    exact ⟨by simp [V2.initClient, V2.loadGeo, h, hl, hi],
      .err ("PH-Geo: error - Initialization failed: "
        ++ (JsError.err (fetchFailMsg2 status statusText)).message),
      by simp [V2.initClient, V2.loadGeo, h, hl, hi]⟩
  | okMalformed =>
    exact ⟨by simp [V2.initClient, V2.loadGeo, h, hl, hi],
      .err ("PH-Geo: error - Initialization failed: " ++ JsError.parseError.message),
      by simp [V2.initClient, V2.loadGeo, h, hl, hi]⟩

/-!
Claim theorems. Claim texts are quoted from CLAIMS.json; amendments are
stated in RESULTS.json.
-/

/-- C1 (counterexample). The claim says: for every N callers that invoke
`load()` concurrently while no load has yet completed, exactly one network
fetch is issued, and every caller observes the outcome of that single fetch.
This is false at N = 2: in variant 1 both callers pass the `this.data` guard
before any fetch settles, so two fetches are issued; and in variant 2, where
one fetch is issued, the second caller's promise resolves successfully at
once, so on a failing fetch the two callers report `[failure, success]` —
the second caller never observes the fetch outcome. -/
theorem c1_counterexample :
    (concurrentCalls1 2 fresh1).1.fetchCount = 2
  ∧ (concurrentCalls1 2 fresh1).1.fetchCount ≠ 1
  ∧ (concurrentCalls2 2 fresh2).1.fetchCount = 1
  ∧ (concurrentCalls2 2 fresh2).2.map (callerOutcome false) = [false, true]
  ∧ (concurrentCalls2 2 fresh2).2.map (callerOutcome false) ≠ [false, false] := by
  refine ⟨rfl, by decide, rfl, rfl, by decide⟩

/-- C1 (amended). For N + 1 callers invoking `loadGeo` concurrently from a
fresh client while no load has completed: in variant 1 every caller issues
its own fetch (N + 1 fetches, each caller awaiting its own); in variant 2
exactly one fetch is issued, the first caller awaits it and observes its
outcome, and the other N callers return successfully at once, reporting
success whatever the fetch outcome is. -/
theorem c1_amended_single_fetch (n : Nat) :
    (concurrentCalls1 (n + 1) fresh1).1.fetchCount = n + 1
  ∧ (concurrentCalls1 (n + 1) fresh1).2 = List.replicate (n + 1) true
  ∧ (concurrentCalls2 (n + 1) fresh2).1.fetchCount = 1
  ∧ (concurrentCalls2 (n + 1) fresh2).2 = true :: List.replicate n false
  ∧ ∀ fetchOk : Bool,
      (concurrentCalls2 (n + 1) fresh2).2.map (callerOutcome fetchOk)
        = fetchOk :: List.replicate n true := by
  obtain ⟨h1, h2⟩ := concCalls1_char (n + 1) fresh1 rfl
  obtain ⟨h3, h4⟩ := concCalls2_char n fresh2 rfl rfl
  refine ⟨by simpa [fresh1] using h1, h2, by simpa [fresh2] using h3, h4, ?_⟩
  intro fetchOk
  simp [h4, callerOutcome, List.map_replicate]

/-- C2. For every client state in which a load has already succeeded (the
dataset is present), calling `load()` again issues no additional fetch and
leaves the client in the same state with the already-cached dataset; the
variant 2 init routine likewise returns the cached promise untouched. -/
theorem c2_idempotent_load (s1 : GeoState1) (s2 : GeoState2) (d1 d2 : Dataset)
    (resp1 resp2 : FetchOutcome) (h1 : s1.data = d1.toJs) (h2 : s2.data = d2.toJs) :
    V1.loadGeo s1 resp1 = (s1, .ok ())
  ∧ V2.loadGeo s2 resp2 = (s2, .ok ())
  ∧ (s2.isInitialized = true → V2.initClient s2 resp2 = (s2, .ok ())) := by
  refine ⟨?_, ?_, ?_⟩
  · simp [V1.loadGeo, h1, truthy_dataset]
  · simp [V2.loadGeo, h2, truthy_dataset]
  · intro hi
    simp [V2.initClient, hi]

/-- C2 witness: the idempotence theorem applied to the loaded sample states,
with a would-be failing response, showing the state is returned unchanged. -/
theorem c2_idempotent_load_witness :
    V1.loadGeo (loadedState1 sampleDataset) (.notOk 500 "Internal Server Error")
      = (loadedState1 sampleDataset, .ok ())
  ∧ V2.loadGeo (loadedState2 sampleDataset) (.notOk 500 "Internal Server Error")
      = (loadedState2 sampleDataset, .ok ())
  ∧ V2.initClient (loadedState2 sampleDataset) (.notOk 500 "Internal Server Error")
      = (loadedState2 sampleDataset, .ok ()) := by
  obtain ⟨h1, h2, h3⟩ := c2_idempotent_load (loadedState1 sampleDataset)
    (loadedState2 sampleDataset) sampleDataset sampleDataset
    (.notOk 500 "Internal Server Error") (.notOk 500 "Internal Server Error") rfl rfl
  exact ⟨h1, h2, h3 rfl⟩

/-- C3. For every failing `load()` (non-ok transport status or malformed
JSON payload), the error is propagated to the caller, the client state
afterwards is still not loaded (no dataset stored, not marked initialized,
variant 2's `isLoading` cleared by the `finally`), and a later `load()` call
performs a fresh fetch. -/
theorem c3_failed_load_retryable (s1 : GeoState1) (s2 : GeoState2)
    (resp resp2 : FetchOutcome) (h1 : s1.data = .null) (hi1 : s1.isInitialized = false)
    (h2 : s2.data = .null) (hl2 : s2.isLoading = false) (hi2 : s2.isInitialized = false)
    (hf : resp.failing = true) :
    (∃ e, (V1.loadGeo s1 resp).2 = .error e)
  ∧ (V1.loadGeo s1 resp).1.data = .null
  ∧ (V1.initClient s1 resp).1.isInitialized = false
  ∧ (V1.loadGeo (V1.loadGeo s1 resp).1 resp2).1.fetchCount
      = (V1.loadGeo s1 resp).1.fetchCount + 1
  ∧ (∃ e, (V2.loadGeo s2 resp).2 = .error e)
  ∧ (V2.loadGeo s2 resp).1.data = .null
  ∧ (V2.loadGeo s2 resp).1.isLoading = false
  ∧ (V2.initClient s2 resp).1.isInitialized = false
  ∧ (∃ e, (V2.initClient s2 resp).2 = .error e)
  ∧ (V2.loadGeo (V2.loadGeo s2 resp).1 resp2).1.fetchCount
      = (V2.loadGeo s2 resp).1.fetchCount + 1 := by
  have t1 : truthy s1.data = false := by rw [h1]; rfl
  have t2 : truthy s2.data = false := by rw [h2]; rfl
  obtain ⟨hs1, he1⟩ := loadGeo1_failing s1 resp t1 hf
  obtain ⟨hi1s, hie1⟩ := initClient1_failing s1 resp t1 hf
  obtain ⟨hs2, he2⟩ := loadGeo2_failing s2 resp t2 hl2 hf
  obtain ⟨hi2s, hie2⟩ := initClient2_failing s2 resp t2 hl2 hi2 hf
  refine ⟨he1, ?_, ?_, ?_, he2, ?_, ?_, ?_, hie2, ?_⟩
  · rw [hs1]; exact h1
  · rw [hi1s]; exact hi1
  · rw [hs1]; exact loadGeo1_fetches _ resp2 t1
  · rw [hs2]; exact h2
  · rw [hs2]; exact hl2
  · rw [hi2s]; exact hi2
  · rw [hs2]; exact loadGeo2_fetches _ resp2 t2 hl2

/-- C3 witness: a fresh client, an HTTP 500 response, then a succeeding
retry: the failure propagates, the state stays unloaded, and the retry
fetches again. -/
theorem c3_failed_load_retryable_witness :
    (∃ e, (V1.loadGeo fresh1 (.notOk 500 "Internal Server Error")).2 = .error e)
  ∧ (V1.loadGeo fresh1 (.notOk 500 "Internal Server Error")).1.data = .null
  ∧ (V1.initClient fresh1 (.notOk 500 "Internal Server Error")).1.isInitialized = false
  ∧ (V1.loadGeo (V1.loadGeo fresh1 (.notOk 500 "Internal Server Error")).1
      (.okJson sampleDataset.toJs)).1.fetchCount
      = (V1.loadGeo fresh1 (.notOk 500 "Internal Server Error")).1.fetchCount + 1
  ∧ (∃ e, (V2.loadGeo fresh2 (.notOk 500 "Internal Server Error")).2 = .error e)
  ∧ (V2.loadGeo fresh2 (.notOk 500 "Internal Server Error")).1.data = .null
  ∧ (V2.loadGeo fresh2 (.notOk 500 "Internal Server Error")).1.isLoading = false
  ∧ (V2.initClient fresh2 (.notOk 500 "Internal Server Error")).1.isInitialized = false
  ∧ (∃ e, (V2.initClient fresh2 (.notOk 500 "Internal Server Error")).2 = .error e)
  ∧ (V2.loadGeo (V2.loadGeo fresh2 (.notOk 500 "Internal Server Error")).1
      (.okJson sampleDataset.toJs)).1.fetchCount
      = (V2.loadGeo fresh2 (.notOk 500 "Internal Server Error")).1.fetchCount + 1 :=
  c3_failed_load_retryable fresh1 fresh2 (.notOk 500 "Internal Server Error")
    (.okJson sampleDataset.toJs) rfl rfl rfl rfl rfl rfl

/-- Variant 1 client state after its only load attempt failed: `this.data`
was never assigned, `isInitialized` was never set, one fetch was issued, and
`_initPromise` has settled (its rejection was consumed by the constructor). -/
def failedState1 : GeoState1 :=
  { data := .null, isInitialized := false, fetchCount := 1 }

/-- C4 (counterexample). The claim says any query after a failed,
un-retried load fails with NotLoadedError (or awaits a retried load). In
variant 1 the settled `_initPromise` is awaited without any retry and the
queries then run on `this.data === null`: `getRegions` throws a TypeError
(reading `regions` of null) and `getProvincesByRegion` throws a
region-not-found error — neither is the not-loaded error. -/
theorem c4_counterexample :
    V1.getRegions failedState1 = .error .typeError
  ∧ JsError.typeError ≠ .err notLoadedMsg
  ∧ V1.getProvincesByRegion failedState1 "NCR" = .error (.err (regionMsg1 "NCR"))
  ∧ JsError.err (regionMsg1 "NCR") ≠ .err notLoadedMsg :=
  ⟨rfl, by decide, rfl, by decide⟩

/-- C4 (amended). After a failed load with no successful retry, no query
returns stale or partial data: in variant 2 every query fails with the
not-loaded error; in variant 1 (whose queries await the already-settled
init promise, which never rejects) `getRegions` fails with a TypeError and
the keyed queries fail with a region-not-found error for the requested key. -/
theorem c4_amended_queries_fail (s1 : GeoState1) (s2 : GeoState2) (r p c : String)
    (h1 : s1.data = .null) (h2 : truthy s2.data = false) :
    V2.getRegions s2 = .error (.err notLoadedMsg)
  ∧ V2.getProvincesByRegion s2 r = .error (.err notLoadedMsg)
  ∧ V2.getCitiesByProvince s2 r p = .error (.err notLoadedMsg)
  ∧ V2.getBarangaysByCity s2 r p c = .error (.err notLoadedMsg)
  ∧ V1.getRegions s1 = .error .typeError
  ∧ V1.getProvincesByRegion s1 r = .error (.err (regionMsg1 r))
  ∧ V1.getCitiesByProvince s1 r p = .error (.err (regionMsg1 r))
  ∧ V1.getBarangaysByCity s1 r p c = .error (.err (regionMsg1 r)) := by
  refine ⟨?_, ?_, ?_, ?_, ?_, ?_, ?_, ?_⟩ <;>
    simp [V2.getRegions, V2.getProvincesByRegion, V2.getCitiesByProvince,
      V2.getBarangaysByCity, ensure2_notLoaded s2 h2, V1.getRegions,
      V1.getProvincesByRegion, V1.getCitiesByProvince, V1.getBarangaysByCity,
      V1.ensureDataLoaded, V1._getRegion, V1._getProvince, V1._getCity,
      h1, jsGet, optGet, truthy]

/-- C4 witness: the amended theorem applied to the failed variant 1 state
and the fresh variant 2 state, at the sample query arguments. -/
theorem c4_amended_queries_fail_witness :
    V2.getRegions fresh2 = .error (.err notLoadedMsg)
  ∧ V2.getProvincesByRegion fresh2 "NCR" = .error (.err notLoadedMsg)
  ∧ V2.getCitiesByProvince fresh2 "NCR" "Metro Manila" = .error (.err notLoadedMsg)
  ∧ V2.getBarangaysByCity fresh2 "NCR" "Metro Manila" "Quezon City"
      = .error (.err notLoadedMsg)
  ∧ V1.getRegions failedState1 = .error .typeError
  ∧ V1.getProvincesByRegion failedState1 "NCR" = .error (.err (regionMsg1 "NCR"))
  ∧ V1.getCitiesByProvince failedState1 "NCR" "Metro Manila"
      = .error (.err (regionMsg1 "NCR"))
  ∧ V1.getBarangaysByCity failedState1 "NCR" "Metro Manila" "Quezon City"
      = .error (.err (regionMsg1 "NCR")) :=
  c4_amended_queries_fail failedState1 fresh2 "NCR" "Metro Manila" "Quezon City" rfl rfl

/-- C5 (counterexample). The claim says `getRegions()` returns exactly the
sequence of region names that are the keys of the dataset's `regions`
mapping. Variant 2's `getRegions` returns `this.data.regions` itself — the
mapping object — and not the sequence of its keys: on the sample dataset the
result is the one-entry object, which is not the name sequence `["NCR"]`. -/
theorem c5_counterexample :
    V2.getRegions (loadedState2 sampleDataset) = .ok (.obj [("NCR", sampleRegion.toJs)])
  ∧ JsVal.obj [("NCR", sampleRegion.toJs)] ≠ .arr [.str "NCR"] :=
  ⟨rfl, fun hcontra => JsVal.noConfusion hcontra⟩

/-- C5 (amended). After a successful load, variant 1's `getRegions` returns
exactly the keys of the dataset's `regions` mapping in insertion order;
variant 2's `getRegions` returns the regions mapping object itself, whose
own keys, in order, are those same region names. -/
theorem c5_amended_regions_keys (d : Dataset) :
    V1.getRegions (loadedState1 d) = .ok (d.regions.map Prod.fst)
  ∧ V2.getRegions (loadedState2 d)
      = .ok (.obj (d.regions.map (fun kv => (kv.1, Region.toJs kv.2))))
  ∧ (d.regions.map (fun kv => (kv.1, Region.toJs kv.2))).map Prod.fst
      = d.regions.map Prod.fst :=
  ⟨getRegions1_eq d, getRegions2_eq d, keys_map_emb _ _⟩

/-- C6 (counterexample). The claim says lookup short-circuits at the first
missing level and fails with an error identifying that level and key. With
the region argument `"constructor"` — absent from the sample dataset but
naming an inherited `Object.prototype` member — the missing level is the
region, yet `getCitiesByProvince` reports a province-level error instead. -/
theorem c6_counterexample :
    assocFind "constructor" sampleDataset.regions = none
  ∧ V1.getCitiesByProvince (loadedState1 sampleDataset) "constructor" "x"
      = .error (.err (provinceMsg1 "x" "constructor"))
  ∧ JsError.err (provinceMsg1 "x" "constructor") ≠ .err (regionMsg1 "constructor") :=
  ⟨rfl, rfl, by decide⟩

/-- C6 (amended). On a loaded dataset, both variants resolve region, then
province, then city, short-circuiting at the first level whose key is
absent and failing with the not-found error naming that level and key —
provided each absent name does not collide with an inherited
`Object.prototype` property name (such names are treated as present, see
C9). In particular a present region with an absent province yields the
province-level error. -/
theorem c6_amended_lookup_order (d : Dataset) (r p c : String) :
    (assocFind r d.regions = none → r ∉ objectProtoNames →
        V1.getCitiesByProvince (loadedState1 d) r p = .error (.err (regionMsg1 r))
      ∧ V2.getCitiesByProvince (loadedState2 d) r p = .error (.err (regionMsg2 r))
      ∧ V1.getBarangaysByCity (loadedState1 d) r p c = .error (.err (regionMsg1 r))
      ∧ V2.getBarangaysByCity (loadedState2 d) r p c = .error (.err (regionMsg2 r)))
  ∧ (∀ reg, assocFind r d.regions = some reg → assocFind p reg.provinces = none →
        p ∉ objectProtoNames →
        V1.getCitiesByProvince (loadedState1 d) r p = .error (.err (provinceMsg1 p r))
      ∧ V2.getCitiesByProvince (loadedState2 d) r p = .error (.err (provinceMsg2 p r))
      ∧ V1.getBarangaysByCity (loadedState1 d) r p c = .error (.err (provinceMsg1 p r))
      ∧ V2.getBarangaysByCity (loadedState2 d) r p c = .error (.err (provinceMsg2 p r)))
  ∧ (∀ reg prov, assocFind r d.regions = some reg →
        assocFind p reg.provinces = some prov → assocFind c prov.cities = none →
        c ∉ objectProtoNames →
        V1.getBarangaysByCity (loadedState1 d) r p c = .error (.err (cityMsg1 c p r))
      ∧ V2.getBarangaysByCity (loadedState2 d) r p c = .error (.err (cityMsg2 c p))) := by
  refine ⟨fun h hr => ⟨getCities1_region_none d r p h hr,
      getCities2_region_none d r p h hr, getBar1_region_none d r p c h hr,
      getBar2_region_none d r p c h hr⟩,
    fun reg h hp hpp => ⟨getCities1_prov_none d r p reg h hp hpp,
      getCities2_prov_none d r p reg h hp hpp, getBar1_prov_none d r p c reg h hp hpp,
      getBar2_prov_none d r p c reg h hp hpp⟩,
    fun reg prov h hp hc hcp => ⟨getBar1_city_none d r p c reg prov h hp hc hcp,
      getBar2_city_none d r p c reg prov h hp hc hcp⟩⟩

/-- C6 witness: the amended theorem instantiated on the sample dataset at a
missing province (the spec's `("NCR","Rizal")` scenario), a missing region
and a missing city. -/
theorem c6_amended_lookup_order_witness :
    V1.getCitiesByProvince (loadedState1 sampleDataset) "NCR" "Rizal"
      = .error (.err (provinceMsg1 "Rizal" "NCR"))
  ∧ V2.getCitiesByProvince (loadedState2 sampleDataset) "NCR" "Rizal"
      = .error (.err (provinceMsg2 "Rizal" "NCR"))
  ∧ V1.getBarangaysByCity (loadedState1 sampleDataset) "Cordillera" "Benguet" "Baguio"
      = .error (.err (regionMsg1 "Cordillera"))
  ∧ V1.getBarangaysByCity (loadedState1 sampleDataset) "NCR" "Metro Manila" "Makati"
      = .error (.err (cityMsg1 "Makati" "Metro Manila" "NCR")) := by
  refine ⟨?_, ?_, ?_, ?_⟩
  · exact (((c6_amended_lookup_order sampleDataset "NCR" "Rizal" "x").2.1)
      sampleRegion rfl rfl (by decide)).1
  · exact (((c6_amended_lookup_order sampleDataset "NCR" "Rizal" "x").2.1)
      sampleRegion rfl rfl (by decide)).2.1
  · exact ((c6_amended_lookup_order sampleDataset "Cordillera" "Benguet" "Baguio").1
      rfl (by decide)).2.2.1
  · exact (((c6_amended_lookup_order sampleDataset "NCR" "Metro Manila" "Makati").2.2)
      sampleRegion sampleProvince rfl rfl rfl (by decide)).1

/-- C7 (counterexample). The claim says any region name absent from a
loaded dataset fails with the not-found error. The name `"constructor"` is
absent from the sample dataset's keys, yet variant 2 returns a non-error
(an empty object) and variant 1 fails with a TypeError instead of the
not-found error. -/
theorem c7_counterexample :
    "constructor" ∉ sampleDataset.regions.map Prod.fst
  ∧ V2.getProvincesByRegion (loadedState2 sampleDataset) "constructor" = .ok (.obj [])
  ∧ V1.getProvincesByRegion (loadedState1 sampleDataset) "constructor" = .error .typeError
  ∧ JsError.typeError ≠ .err (regionMsg2 "constructor") :=
  ⟨by decide, rfl, rfl, by decide⟩

/-- C7 (amended). On a loaded dataset `getProvincesByRegion` returns a
non-error result for every region name present among the dataset's keys,
and fails with the region-not-found error for every absent name that does
not collide with an inherited `Object.prototype` property name; an absent
name that does collide is treated as present (variant 1 then fails with a
TypeError, variant 2 returns an empty mapping). -/
theorem c7_amended_region_presence (d : Dataset) (r : String) :
    (r ∈ d.regions.map Prod.fst →
        (∃ names, V1.getProvincesByRegion (loadedState1 d) r = .ok names)
      ∧ ∃ v, V2.getProvincesByRegion (loadedState2 d) r = .ok v)
  ∧ (r ∉ d.regions.map Prod.fst → r ∉ objectProtoNames →
        V1.getProvincesByRegion (loadedState1 d) r = .error (.err (regionMsg1 r))
      ∧ V2.getProvincesByRegion (loadedState2 d) r = .error (.err (regionMsg2 r)))
  ∧ (r ∉ d.regions.map Prod.fst → r ∈ objectProtoNames →
        V1.getProvincesByRegion (loadedState1 d) r = .error .typeError
      ∧ V2.getProvincesByRegion (loadedState2 d) r = .ok (.obj [])) := by
  refine ⟨?_, ?_, ?_⟩
  · intro hmem
    have hs : (assocFind r d.regions).isSome := (assocFind_isSome_iff_mem r d.regions).2 hmem
    obtain ⟨reg, hreg⟩ := Option.isSome_iff_exists.1 hs
    exact ⟨⟨_, getProvinces1_some d r reg hreg⟩, _, getProvinces2_some d r reg hreg⟩
  · intro hnm hp
    have hn : assocFind r d.regions = none := (assocFind_eq_none_iff r d.regions).2 hnm
    exact ⟨getProvinces1_none d r hn hp, getProvinces2_none d r hn hp⟩
  · intro hnm hp
    have hn : assocFind r d.regions = none := (assocFind_eq_none_iff r d.regions).2 hnm
    exact ⟨getProvinces1_inherited d r hn hp, getProvinces2_inherited d r hn hp⟩

/-- C7 witness: the amended theorem instantiated on the sample dataset at a
present name, a plainly absent name, and the colliding name. -/
theorem c7_amended_region_presence_witness :
    (∃ names, V1.getProvincesByRegion (loadedState1 sampleDataset) "NCR" = .ok names)
  ∧ V1.getProvincesByRegion (loadedState1 sampleDataset) "Rizal"
      = .error (.err (regionMsg1 "Rizal"))
  ∧ V2.getProvincesByRegion (loadedState2 sampleDataset) "constructor" = .ok (.obj []) := by
  refine ⟨?_, ?_, ?_⟩
  · exact ((c7_amended_region_presence sampleDataset "NCR").1 (by decide)).1
  · exact ((c7_amended_region_presence sampleDataset "Rizal").2.1 (by decide) (by decide)).1
  · exact ((c7_amended_region_presence sampleDataset "constructor").2.2
      (by decide) (by decide)).2

/-- C8. For every loaded dataset and every (region, province, city) path
that fully resolves, both variants' `getBarangaysByCity` return that city's
barangay sequence, and the empty sequence when the city has no barangays
recorded. -/
theorem c8_barangays_roundtrip (d : Dataset) (r p c : String) (reg : Region)
    (prov : Province) (city : City) (h : assocFind r d.regions = some reg)
    (hp : assocFind p reg.provinces = some prov)
    (hc : assocFind c prov.cities = some city) :
    V1.getBarangaysByCity (loadedState1 d) r p c
      = .ok (.arr (city.barangays.map (fun b => .str b)))
  ∧ V2.getBarangaysByCity (loadedState2 d) r p c
      = .ok (.arr (city.barangays.map (fun b => .str b)))
  ∧ (city.barangays = [] →
        V1.getBarangaysByCity (loadedState1 d) r p c = .ok (.arr [])
      ∧ V2.getBarangaysByCity (loadedState2 d) r p c = .ok (.arr [])) := by
  refine ⟨getBar1_some d r p c reg prov city h hp hc,
    getBar2_some d r p c reg prov city h hp hc, ?_⟩
  intro he
  constructor
  · rw [getBar1_some d r p c reg prov city h hp hc, he]
    rfl
  · rw [getBar2_some d r p c reg prov city h hp hc, he]
    rfl

/-- C8 witness: on the sample dataset,
`getBarangaysByCity("NCR","Metro Manila","Quezon City")` returns the spec's
expected sequence in both variants. -/
theorem c8_barangays_roundtrip_witness :
    V1.getBarangaysByCity (loadedState1 sampleDataset) "NCR" "Metro Manila" "Quezon City"
      = .ok (.arr [.str "Bagong Silangan", .str "Commonwealth"])
  ∧ V2.getBarangaysByCity (loadedState2 sampleDataset) "NCR" "Metro Manila" "Quezon City"
      = .ok (.arr [.str "Bagong Silangan", .str "Commonwealth"]) := by
  obtain ⟨h1, h2, _⟩ := c8_barangays_roundtrip sampleDataset "NCR" "Metro Manila"
    "Quezon City" sampleRegion sampleProvince sampleCity rfl rfl rfl
  exact ⟨h1, h2⟩

/-- C9. Existence of a region is decided by truthiness of a property access
rather than own-key membership: a name absent from the data's own keys that
names an inherited `Object.prototype` property (e.g. `"constructor"`) is
treated as present by both variants' region lookup, while an own key whose
value is falsy is treated as absent and reported not found. -/
theorem c9_truthiness_lookup (fields : List (String × JsVal)) (r : String) :
    (assocFind r fields = none → r ∈ objectProtoProps →
        V1._getRegion (rawState1 fields) r = .ok (.fn r)
      ∧ V2.getProvincesByRegion (rawState2 fields) r = .ok (.obj []))
  ∧ (∀ v, assocFind r fields = some v → truthy v = false →
        V1._getRegion (rawState1 fields) r = .error (.err (regionMsg1 r))
      ∧ V2.getProvincesByRegion (rawState2 fields) r = .error (.err (regionMsg2 r))) := by
  constructor
  · intro hn hp
    constructor
    · simp [V1._getRegion, rawState1, optGet, assocFind, hn,
        protoLookup_of_mem hp, truthy_fn]
    · simp [V2.getProvincesByRegion, rawState2, V2.ensureDataLoaded, truthy_obj,
        jsGet_obj, optGet, assocFind, hn, protoLookup_of_mem hp, truthy_fn,
        jsGet_fn, protoLookup_provinces, jsOr, truthy_undefined]
  · intro v hv hfalse
    constructor
    · simp [V1._getRegion, rawState1, optGet, assocFind, hv, hfalse]
    · simp [V2.getProvincesByRegion, rawState2, V2.ensureDataLoaded, truthy_obj,
        jsGet_obj, optGet, assocFind, hv, hfalse]

/-- C9 witness: on a regions object with the single own key `"X"` bound to
`null`, both variants treat `"constructor"` as present and `"X"` as absent. -/
theorem c9_truthiness_lookup_witness :
    V1._getRegion (rawState1 [("X", .null)]) "constructor" = .ok (.fn "constructor")
  ∧ V2.getProvincesByRegion (rawState2 [("X", .null)]) "constructor" = .ok (.obj [])
  ∧ V1._getRegion (rawState1 [("X", .null)]) "X" = .error (.err (regionMsg1 "X"))
  ∧ V2.getProvincesByRegion (rawState2 [("X", .null)]) "X"
      = .error (.err (regionMsg2 "X")) := by
  refine ⟨?_, ?_, ?_, ?_⟩
  · exact ((c9_truthiness_lookup [("X", .null)] "constructor").1 rfl (by decide)).1
  · exact ((c9_truthiness_lookup [("X", .null)] "constructor").1 rfl (by decide)).2
  · exact ((c9_truthiness_lookup [("X", .null)] "X").2 .null rfl rfl).1
  · exact ((c9_truthiness_lookup [("X", .null)] "X").2 .null rfl rfl).2

/-- C10. In the synchronous variant, when the looked-up region exists but
has no `provinces` field, `getProvincesByRegion` returns an empty mapping
(via `|| \x7b\x7d`) rather than failing; likewise `getCitiesByProvince`
returns an empty mapping when the resolved province has no `cities` field. -/
theorem c10_missing_fields_default (regions : List (String × JsVal)) (r p : String) :
    (∀ rf, assocFind r regions = some (.obj rf) → assocFind "provinces" rf = none →
        V2.getProvincesByRegion (rawState2 regions) r = .ok (.obj []))
  ∧ (∀ rf pf cf, assocFind r regions = some (.obj rf) →
        assocFind "provinces" rf = some (.obj pf) → assocFind p pf = some (.obj cf) →
        assocFind "cities" cf = none →
        V2.getCitiesByProvince (rawState2 regions) r p = .ok (.obj [])) := by
  constructor
  · intro rf hr hprov
    simp [V2.getProvincesByRegion, rawState2, V2.ensureDataLoaded, truthy_obj, jsGet_obj,
      optGet, assocFind, hr, hprov, protoLookup_provinces, jsOr, truthy_undefined]
  · intro rf pf cf hr hprov hp hc
    simp [V2.getCitiesByProvince, rawState2, V2.ensureDataLoaded, truthy_obj, jsGet_obj,
      optGet, assocFind, hr, hprov, hp, hc, protoLookup_cities, jsOr, truthy_undefined]

/-- C10 witness: a region with no `provinces` field yields an empty object,
and a province with no `cities` field yields an empty object. -/
theorem c10_missing_fields_default_witness :
    V2.getProvincesByRegion (rawState2 [("R", .obj [])]) "R" = .ok (.obj [])
  ∧ V2.getCitiesByProvince
      (rawState2 [("R", .obj [("provinces", .obj [("P", .obj [])])])]) "R" "P"
      = .ok (.obj []) := by
  constructor
  · exact (c10_missing_fields_default [("R", .obj [])] "R" "P").1 [] rfl rfl
  · exact (c10_missing_fields_default
      [("R", .obj [("provinces", .obj [("P", .obj [])])])] "R" "P").2
      [("provinces", .obj [("P", .obj [])])] [("P", .obj [])] [] rfl rfl rfl rfl

end PHGeo
